import Mathlib

/-!
Verification of the cdecl-style C declaration lexer and parser of
`src/pdxcp_cdp/cdcl_lexer.c` and `src/pdxcp_cdp/cdcl_parser.c`
(headers `include/pdxcp/cdcl_lexer.h`, `include/pdxcp/cdcl_parser.h`).

Shallow embedding conventions:
* the `FILE *` input stream is a `List Char`; `fgetc` pops the head and
  returns "EOF" on the empty list; `ungetc` prepends the character (the
  code relies on at most one character of pushback, which never fails in
  this model, so `lexer_status_ungetc_fail` is unreachable);
* the output stream is a `String` that every `fprintf` appends to
  (writes cannot fail in the model, so `parser_status_out_err` is
  unreachable);
* the caller-supplied `pdxcp_cdcl_parser_errinfo *` is an
  `Option Errinfo`: `none` models a NULL pointer;
* the token stack is a `List Token` whose head is the top
  (`n_tokens` is the length); `PDXCP_CDCL_TOKEN_STACK_PUSH` is modelled
  with an `Option` result whose `none` branch stands for the
  out-of-bounds write the C macro performs on a full stack;
* the two token-reading loops of the parser take a fuel parameter
  (`ParseResult.fuelOut` reports exhaustion); all lexer loops consume at
  least one character per step and are structurally recursive;
* C `char` buffers (`token.text`, error texts) are `String`s; the
  bounded-write behaviour of the C code (`PDXCP_CDCL_MAX_TOKEN_LEN`,
  `snprintf` bounds, `memcpy` of error templates over partially written
  buffers) is reproduced explicitly.
-/

namespace Pdxcp

/-- ASCII white-space test matching C `isspace` in the default locale:
space, tab, newline, vertical tab, form feed, carriage return. -/
def isspace_ (c : Char) : Bool :=
  decide (c = ' ' ∨ c = '\t' ∨ c = '\n' ∨ c = '\x0b' ∨ c = '\x0c' ∨ c = '\r')

/-- ASCII letter test matching C `isalpha` in the default locale. -/
def isalpha_ (c : Char) : Bool :=
  decide (('a' ≤ c ∧ c ≤ 'z') ∨ ('A' ≤ c ∧ c ≤ 'Z'))

/-- ASCII digit test matching C `isdigit`. -/
def isdigit_ (c : Char) : Bool :=
  decide ('0' ≤ c ∧ c ≤ '9')

/-- ASCII letter-or-digit test matching C `isalnum`. -/
def isalnum_ (c : Char) : Bool :=
  isalpha_ c || isdigit_ c

/-- Token type enumeration from `cdcl_lexer.h` (`pdxcp_cdcl_token_type`).
`struct`/`enum` are Lean keywords, hence the `_kw` suffix. -/
inductive TokenType
  | error
  | lparen
  | rparen
  | langle
  | rangle
  | comma
  | slash
  | star
  | semicolon
  | struct_kw
  | enum_kw
  | q_const
  | q_volatile
  | q_signed
  | q_unsigned
  | t_void
  | t_char
  | t_int
  | t_long
  | t_float
  | t_double
  | num
  | iden
deriving DecidableEq, Repr

/-- Maximum token length (`PDXCP_CDCL_MAX_TOKEN_LEN`). -/
def PDXCP_CDCL_MAX_TOKEN_LEN : Nat := 79

/-- Token struct from `cdcl_lexer.h` (`pdxcp_cdcl_token`): a type tag plus
the null-terminated text buffer, modelled as the string up to the
terminator. -/
structure Token where
  type : TokenType
  text : String
deriving DecidableEq, Repr

/-- Lexer status codes from `cdcl_lexer.h` (`pdxcp_cdcl_lexer_status`). -/
inductive LexerStatus
  | ok
  | stream_null
  | token_null
  | ungetc_fail
  | fgetc_eof
  | not_num
  | not_iden
  | bad_token
deriving DecidableEq, Repr

/-- Enumerator-name strings returned by `pdxcp_cdcl_token_type_string`,
used verbatim inside parser error messages. -/
def token_type_string : TokenType → String
  | .error => "pdxcp_cdcl_token_type_error"
  | .lparen => "pdxcp_cdcl_token_type_lparen"
  | .rparen => "pdxcp_cdcl_token_type_rparen"
  | .langle => "pdxcp_cdcl_token_type_langle"
  | .rangle => "pdxcp_cdcl_token_type_rangle"
  | .comma => "pdxcp_cdcl_token_type_comma"
  | .slash => "pdxcp_cdcl_token_type_slash"
  | .star => "pdxcp_cdcl_token_type_star"
  | .semicolon => "pdxcp_cdcl_token_type_semicolon"
  | .struct_kw => "pdxcp_cdcl_token_type_struct"
  | .enum_kw => "pdxcp_cdcl_token_type_enum"
  | .q_const => "pdxcp_cdcl_token_type_q_const"
  | .q_volatile => "pdxcp_cdcl_token_type_q_volatile"
  | .q_signed => "pdxcp_cdcl_token_type_q_signed"
  | .q_unsigned => "pdxcp_cdcl_token_type_q_unsigned"
  | .t_void => "pdxcp_cdcl_token_type_t_void"
  | .t_char => "pdxcp_cdcl_token_type_t_char"
  | .t_int => "pdxcp_cdcl_token_type_t_int"
  | .t_long => "pdxcp_cdcl_token_type_t_long"
  | .t_float => "pdxcp_cdcl_token_type_t_float"
  | .t_double => "pdxcp_cdcl_token_type_t_double"
  | .num => "pdxcp_cdcl_token_type_num"
  | .iden => "pdxcp_cdcl_token_type_iden"

/-- Error message template for invalid character tokens
(`char_token_error` in `cdcl_lexer.c`; the `X` is overwritten with the
offending character). -/
def char_token_error : String := "Unknown character token 'X'"

/-- Error message for a too-long token (`long_token_error` in
`cdcl_lexer.c`); 20 characters, `memcpy`-ed over the front of the token
text without a terminator. -/
def long_token_error : String := "Token too large: ..."

/-- Message `strcpy`-ed into the token text by `pdxcp_cdcl_get_num_text`
when a `0` is followed by something other than `x`/`X`. -/
def malformed_num_error : String :=
  "Malformed token read when attempting to parse number"

/-- Model of writing the characters of `new` over the front of a
null-terminated buffer currently holding `old`, WITHOUT writing a new
terminator: the visible string keeps `old`'s tail past the overwrite. -/
def writeChars (old new : String) : String :=
  new ++ old.drop new.length

/-- Embedding of `pdxcp_cdcl_set_char_token`: classify a single character
into one of the punctuation tokens, or produce a bad token whose text is
`char_token_error` with the offending character written over the `X`
(index `sizeof char_token_error - 3`). The incoming token contents are
irrelevant because type and text are always overwritten. -/
def set_char_token (c : Char) : LexerStatus × Token :=
  if c = '(' then (.ok, ⟨.lparen, ""⟩)
  else if c = ')' then (.ok, ⟨.rparen, ""⟩)
  else if c = '[' then (.ok, ⟨.langle, ""⟩)
  else if c = ']' then (.ok, ⟨.rangle, ""⟩)
  else if c = ',' then (.ok, ⟨.comma, ""⟩)
  else if c = '/' then (.ok, ⟨.slash, ""⟩)
  else if c = '*' then (.ok, ⟨.star, ""⟩)
  else if c = ';' then (.ok, ⟨.semicolon, ""⟩)
  else (.bad_token, ⟨.error, "Unknown character token '" ++ String.singleton c ++ "'"⟩)

/-- Accumulation loop of `pdxcp_cdcl_get_iden_text`: keep reading
identifier characters while the buffer write position is below
`PDXCP_CDCL_MAX_TOKEN_LEN`. Returns the accumulated text, the stream
with the terminating character pushed back (`ungetc`), and the
terminating character itself (`none` when the loop stopped at EOF). -/
def read_iden_rest : List Char → String → String × List Char × Option Char
  | [], acc => (acc, [], none)
  | c :: rest, acc =>
    if (isalnum_ c ∨ c = '_') ∧ acc.length < PDXCP_CDCL_MAX_TOKEN_LEN then
      read_iden_rest rest (acc.push c)
    else (acc, c :: rest, some c)

/-- Embedding of `pdxcp_cdcl_get_iden_text`: skip whitespace, require a
letter or underscore, accumulate the maximal identifier run into the
token text, push the terminator back, and flag a too-long token when the
terminator is still an identifier character (the error template is
copied over the first 20 bytes of the already-written text). -/
def get_iden_text (s : List Char) (tok : Token) : LexerStatus × Token × List Char :=
  match s.dropWhile isspace_ with
  | [] => (.fgetc_eof, tok, [])
  | c :: rest =>
    if ¬(isalpha_ c ∨ c = '_') then (.not_iden, tok, c :: rest)
    else
      match read_iden_rest rest (String.singleton c) with
      | (acc, s2, term) =>
        match term with
        | some t =>
          if isalnum_ t ∨ t = '_' then
            (.bad_token, ⟨.error, writeChars acc long_token_error⟩, s2)
          else (.ok, { tok with text := acc }, s2)
        | none => (.ok, { tok with text := acc }, s2)

/-- Accumulation loop of `pdxcp_cdcl_get_num_text`, the digit analogue of
`read_iden_rest`. -/
def read_num_rest : List Char → String → String × List Char × Option Char
  | [], acc => (acc, [], none)
  | c :: rest, acc =>
    if isdigit_ c ∧ acc.length < PDXCP_CDCL_MAX_TOKEN_LEN then
      read_num_rest rest (acc.push c)
    else (acc, c :: rest, some c)

/-- Shared tail of `pdxcp_cdcl_get_num_text` after the digit loop: flag a
too-long token when the terminator is still a digit, otherwise succeed
with the accumulated text. -/
def num_finish (tok : Token) : String × List Char × Option Char → LexerStatus × Token × List Char
  | (acc, s2, term) =>
    match term with
    | some t =>
      if isdigit_ t then (.bad_token, ⟨.error, writeChars acc long_token_error⟩, s2)
      else (.ok, { tok with text := acc }, s2)
    | none => (.ok, { tok with text := acc }, s2)

/-- Embedding of `pdxcp_cdcl_get_num_text`: skip whitespace, require a
digit, handle the `0x`/`0X` prefix probe (EOF right after a leading `0`
is `fgetc_eof` with the `0` written but unterminated; any other
non-`x`/`X` character is a malformed-number bad token), then accumulate
the digit run. -/
def get_num_text (s : List Char) (tok : Token) : LexerStatus × Token × List Char :=
  match s.dropWhile isspace_ with
  | [] => (.fgetc_eof, tok, [])
  | c :: rest =>
    if ¬ isdigit_ c then (.not_num, tok, c :: rest)
    else if c = '0' then
      match rest with
      | [] => (.fgetc_eof, { tok with text := writeChars tok.text "0" }, [])
      | c2 :: rest2 =>
        if c2 ≠ 'x' ∧ c2 ≠ 'X' then
          (.bad_token, ⟨.error, malformed_num_error⟩, rest2)
        else num_finish tok (read_num_rest rest2 (String.singleton c))
    else num_finish tok (read_num_rest rest (String.singleton c))

/-- Embedding of `pdxcp_cdcl_get_iden_token`: read identifier text, then
classify it against the keyword set; `struct`/`enum` trigger one more
identifier read whose text becomes the token text. -/
def get_iden_token (s : List Char) (tok : Token) : LexerStatus × Token × List Char :=
  match get_iden_text s tok with
  | (st, tok1, s1) =>
    if st ≠ .ok then (st, tok1, s1)
    else if tok1.text = "const" then (.ok, ⟨.q_const, ""⟩, s1)
    else if tok1.text = "volatile" then (.ok, ⟨.q_volatile, ""⟩, s1)
    else if tok1.text = "signed" then (.ok, ⟨.q_signed, ""⟩, s1)
    else if tok1.text = "unsigned" then (.ok, ⟨.q_unsigned, ""⟩, s1)
    else if tok1.text = "struct" then
      match get_iden_text s1 tok1 with
      | (st2, tok2, s2) =>
        if st2 ≠ .ok then (st2, tok2, s2)
        else (.ok, { tok2 with type := .struct_kw }, s2)
    else if tok1.text = "enum" then
      match get_iden_text s1 tok1 with
      | (st2, tok2, s2) =>
        if st2 ≠ .ok then (st2, tok2, s2)
        else (.ok, { tok2 with type := .enum_kw }, s2)
    else if tok1.text = "void" then (.ok, ⟨.t_void, ""⟩, s1)
    else if tok1.text = "char" then (.ok, ⟨.t_char, ""⟩, s1)
    else if tok1.text = "int" then (.ok, ⟨.t_int, ""⟩, s1)
    else if tok1.text = "long" then (.ok, ⟨.t_long, ""⟩, s1)
    else if tok1.text = "float" then (.ok, ⟨.t_float, ""⟩, s1)
    else if tok1.text = "double" then (.ok, ⟨.t_double, ""⟩, s1)
    else (.ok, { tok1 with type := .iden }, s1)

/-- Embedding of `pdxcp_cdcl_get_num_token`: read number text, then tag
the token as a number. -/
def get_num_token (s : List Char) (tok : Token) : LexerStatus × Token × List Char :=
  match get_num_text s tok with
  | (st, tok1, s1) =>
    if st ≠ .ok then (st, tok1, s1)
    else (.ok, { tok1 with type := .num }, s1)

/-- Embedding of `pdxcp_cdcl_skip_rem_c_comment`: scan for `*`, then
check the next character; `/` closes the comment, EOF anywhere is
`fgetc_eof`, and any other character (the `*` lookahead included) is
discarded before rescanning. -/
def skip_rem_c_comment : List Char → LexerStatus × List Char
  | [] => (.fgetc_eof, [])
  | c :: rest =>
    if c = '*' then
      match rest with
      | [] => (.fgetc_eof, [])
      | c2 :: rest2 =>
        if c2 = '/' then (.ok, rest2)
        else skip_rem_c_comment rest2
    else skip_rem_c_comment rest

/-- Shared classification tail of `pdxcp_cdcl_get_token`, reached with a
non-whitespace character in hand: identifiers and numbers push the
character back and delegate, anything else becomes a single-character
token. Note that a `/` reaching this point (as happens right after a
skipped comment) is emitted as a slash token without comment handling. -/
def lex_classify (c : Char) (rest : List Char) (tok : Token) : LexerStatus × Token × List Char :=
  if isalpha_ c ∨ c = '_' then get_iden_token (c :: rest) tok
  else if isdigit_ c then get_num_token (c :: rest) tok
  else
    match set_char_token c with
    | (st, tok1) => (st, tok1, rest)

/-- Post-comment continuation of `pdxcp_cdcl_get_token`: skip any further
whitespace, return `fgetc_eof` at end of input, otherwise classify. -/
def lex_after_comment (s : List Char) (tok : Token) : LexerStatus × Token × List Char :=
  match s.dropWhile isspace_ with
  | [] => (.fgetc_eof, tok, [])
  | c :: rest => lex_classify c rest tok

/-- Embedding of `pdxcp_cdcl_get_token` for a non-NULL stream and token
slot (the `stream_null`/`token_null` guards are unrepresentable here):
skip whitespace, handle a single leading comment (block or line), and
classify the next character. A `/` whose lookahead hits EOF is emitted
as a slash token with `ok` status. -/
def pdxcp_cdcl_get_token (s : List Char) (tok : Token) : LexerStatus × Token × List Char :=
  match s.dropWhile isspace_ with
  | [] => (.fgetc_eof, tok, [])
  | c :: rest =>
    if c = '/' then
      match rest with
      | [] =>
        match set_char_token '/' with
        | (st, tok1) => (st, tok1, [])
      | c2 :: rest2 =>
        if c2 = '*' then
          match skip_rem_c_comment rest2 with
          | (.ok, s3) => lex_after_comment s3 tok
          | (st, s3) => (st, tok, s3)
        else if c2 = '/' then
          match rest2.dropWhile (fun x => !(x = '\n')) with
          | [] => (.fgetc_eof, tok, [])
          | _ :: s3 => lex_after_comment s3 tok
        else
          match set_char_token '/' with
          | (st, tok1) => (st, tok1, c2 :: rest2)
    else lex_classify c rest tok

end Pdxcp

namespace Pdxcp

/-- Parser status codes from `cdcl_parser.h` (`pdxcp_cdcl_parser_status`). -/
inductive ParserStatus
  | ok
  | in_null
  | out_null
  | eof
  | lexer_err
  | token_overflow
  | out_err
  | parse_err
  | bad_token
  | null_err_text
  | err_text_too_long
deriving DecidableEq, Repr

/-- Capacity of the parser token stack (`PDXCP_CDCL_PARSER_STACK_SIZE`). -/
def PDXCP_CDCL_PARSER_STACK_SIZE : Nat := 20

/-- Maximum length of parser error text
(`PDXCP_CDCL_PARSER_ERROR_TEXT_LEN`). -/
def PDXCP_CDCL_PARSER_ERROR_TEXT_LEN : Nat := 255

/-- Lexer half of `pdxcp_cdcl_parser_errinfo`: status plus bounded text. -/
structure LexerErrPart where
  status : LexerStatus
  text : String
deriving DecidableEq, Repr

/-- Parser half of `pdxcp_cdcl_parser_errinfo`: status plus bounded text. -/
structure ParserErrPart where
  status : ParserStatus
  text : String
deriving DecidableEq, Repr

/-- Error info record `pdxcp_cdcl_parser_errinfo` from `cdcl_parser.h`. -/
structure Errinfo where
  lexer : LexerErrPart
  parser : ParserErrPart
deriving DecidableEq, Repr

/-- Model of the bounded `snprintf(errmsg, sizeof errmsg - 1, ...)` calls
in `cdcl_parser.c`: the buffer is 256 bytes and the size argument 255,
so at most 254 characters of the formatted message are kept. -/
def fmt_errmsg (msg : String) : String :=
  msg.take (PDXCP_CDCL_PARSER_ERROR_TEXT_LEN - 1)

/-- Embedding of `pdxcp_cdcl_write_errinfo`. A `none` errinfo (NULL
pointer) is left untouched. Otherwise both sub-records are overwritten:
the lexer text is the current token's text exactly when the lexer status
is `bad_token` (the token pointer may be NULL at call sites, but only
when the status is not `bad_token`, so the `getD` default is never
read); a generic `parse_err` copies the parser text, substituting
`null_err_text` for a NULL text and truncating over-long text to
`PDXCP_CDCL_PARSER_ERROR_TEXT_LEN` bytes with status
`err_text_too_long`. -/
def pdxcp_cdcl_write_errinfo (errinfo : Option Errinfo) (lexer_status : LexerStatus)
    (cur_token : Option Token) (parser_status : ParserStatus)
    (parser_text : Option String) : Option Errinfo :=
  match errinfo with
  | none => none
  | some _ =>
    let ltext : String :=
      if lexer_status = .bad_token then (cur_token.map Token.text).getD "" else ""
    let ppart : ParserErrPart :=
      if parser_status = .parse_err then
        match parser_text with
        | none => ⟨.null_err_text, ""⟩
        | some t =>
          if t.length > PDXCP_CDCL_PARSER_ERROR_TEXT_LEN then
            ⟨.err_text_too_long, t.take PDXCP_CDCL_PARSER_ERROR_TEXT_LEN⟩
          else ⟨parser_status, t⟩
      else ⟨parser_status, ""⟩
    some ⟨⟨lexer_status, ltext⟩, ppart⟩

/-- Embedding of `pdxcp_cdcl_write_parse_err`: report a generic parse
error with `ok` lexer status, NULL token and the given text. -/
def pdxcp_cdcl_write_parse_err (errinfo : Option Errinfo) (parser_text : String) :
    Option Errinfo :=
  pdxcp_cdcl_write_errinfo errinfo .ok none .parse_err (some parser_text)

/-- The `PDXCP_CDCL_TOKEN_STACK_FULL` check. -/
def STACK_FULL (stack : List Token) : Bool :=
  decide (PDXCP_CDCL_PARSER_STACK_SIZE ≤ stack.length)

/-- The `PDXCP_CDCL_TOKEN_STACK_PUSH` macro. Its behaviour is undefined
on a full stack (an out-of-bounds array write); that branch is the
`none` result. -/
def STACK_PUSH (stack : List Token) (tok : Token) : Option (List Token) :=
  if stack.length < PDXCP_CDCL_PARSER_STACK_SIZE then some (tok :: stack) else none

/-- Result of `stream_parse_to_iden`: the returned parser status together
with the out-parameters (lexer status, stack, current token) and the
remaining input. `stackUB` marks the undefined-behaviour branch of the
push macro, `fuelOut` exhaustion of the loop fuel. -/
inductive ToIdenResult
  | fuelOut
  | stackUB
  | done (parser_status : ParserStatus) (lexer_status : LexerStatus)
      (stack : List Token) (cur_token : Token) (rest : List Char)
deriving DecidableEq, Repr

/-- Embedding of `stream_parse_to_iden`: lex tokens, pushing each
non-identifier token (overflow-checked) until an identifier arrives or
the lexer reports a non-ok status (wrapped as `lexer_err`). -/
def stream_parse_to_iden : Nat → List Char → List Token → Token → ToIdenResult
  | 0, _, _, _ => .fuelOut
  | fuel + 1, s, stack, cur =>
    match pdxcp_cdcl_get_token s cur with
    | (st, tok, s1) =>
      if st ≠ .ok then .done .lexer_err st stack tok s1
      else if tok.type = .iden then .done .ok st stack tok s1
      else if STACK_FULL stack then .done .token_overflow st stack tok s1
      else
        match STACK_PUSH stack tok with
        | none => .stackUB
        | some stack1 => stream_parse_to_iden fuel s1 stack1 tok

/-- Result of the right-parenthesis counting loop in
`pdxcp_cdcl_stream_parse`. -/
inductive RparenResult
  | fuelOut
  | done (lexer_status : LexerStatus) (cur_token : Token) (rest : List Char)
      (n_rparen : Nat)
deriving DecidableEq, Repr

/-- Embedding of the do-while loop of `pdxcp_cdcl_stream_parse` that
counts consecutive `)` tokens: the count is pre-incremented, then
another token is read; the loop continues while that token is `)`.
Entered only when a `)` has already been read. -/
def count_rparens : Nat → List Char → Token → Nat → RparenResult
  | 0, _, _, _ => .fuelOut
  | fuel + 1, s, cur, n =>
    match pdxcp_cdcl_get_token s cur with
    | (st, tok, s1) =>
      if st ≠ .ok then .done st tok s1 (n + 1)
      else if tok.type = .rparen then count_rparens fuel s1 tok (n + 1)
      else .done st tok s1 (n + 1)

/-- Result of `stream_parse_ptrs`: parser status, text appended to the
output stream, remaining stack (the token that ended the phase is left
unpopped), updated errinfo, and the number of `pdxcp_cdcl_write_errinfo`
invocations performed. -/
structure PtrsResult where
  status : ParserStatus
  out : String
  stack : List Token
  errinfo : Option Errinfo
  writes : Nat
deriving DecidableEq, Repr

/-- Loop of `stream_parse_ptrs` with the accumulators explicit:
`has_const`/`has_volatile` pending-qualifier flags and the count of `(`
popped so far. Peeks and pops are guarded by the non-empty match, as the
C loop guards them with `PDXCP_CDCL_TOKEN_STACK_EMPTY`. -/
def stream_parse_ptrs_go :
    List Token → Bool → Bool → Nat → Nat → Option Errinfo → PtrsResult
  | [], _, _, _, _, e =>
    ⟨.parse_err, "", [],
      pdxcp_cdcl_write_parse_err e
        "Unexpectedly ran out of tokens when parsing pointers, missing type", 1⟩
  | t :: rest, has_const, has_volatile, n_lparen, n_rparen, e =>
    match t.type with
    | .q_const =>
      if has_const then
        ⟨.parse_err, "", t :: rest,
          pdxcp_cdcl_write_parse_err e "Duplicate pointer const qualifier", 1⟩
      else stream_parse_ptrs_go rest true has_volatile n_lparen n_rparen e
    | .q_volatile =>
      if has_volatile then
        ⟨.parse_err, "", t :: rest,
          pdxcp_cdcl_write_parse_err e "Duplicate pointer volatile qualifier", 1⟩
      else stream_parse_ptrs_go rest has_const true n_lparen n_rparen e
    | .lparen => stream_parse_ptrs_go rest has_const has_volatile (n_lparen + 1) n_rparen e
    | .star =>
      let o := (if has_const then " const" else "")
        ++ (if has_volatile then " volatile" else "") ++ " pointer to"
      let r := stream_parse_ptrs_go rest false false n_lparen n_rparen e
      { r with out := o ++ r.out }
    | _ =>
      if has_const || has_volatile then
        ⟨.parse_err, "", t :: rest,
          pdxcp_cdcl_write_parse_err e
            (fmt_errmsg ("Unexpected token type " ++ token_type_string t.type
              ++ " with text \"" ++ t.text ++ "\" when parsing pointers")), 1⟩
      else if n_lparen ≠ n_rparen then
        ⟨.parse_err, "", t :: rest,
          pdxcp_cdcl_write_parse_err e
            (fmt_errmsg ("Mismatched parentheses when parsing pointers, read "
              ++ toString n_lparen ++ " '(' " ++ toString n_rparen ++ " ')'")), 1⟩
      else ⟨.ok, "", t :: rest, e, 0⟩

/-- Embedding of `stream_parse_ptrs` (accumulators at their initial
values). -/
def stream_parse_ptrs (stack : List Token) (n_rparen : Nat) (e : Option Errinfo) :
    PtrsResult :=
  stream_parse_ptrs_go stack false false 0 n_rparen e

/-- Result of `stream_parse_type`: parser status, text appended to the
output stream, updated errinfo, and write count. -/
structure TypeResult where
  status : ParserStatus
  out : String
  errinfo : Option Errinfo
  writes : Nat
deriving DecidableEq, Repr

/-- Final type-printing switch of `stream_parse_type` (after the
cv-qualifiers and sign qualifiers have been emitted into `o`). -/
def type_print (o : String) (type_token : Token) (e : Option Errinfo) : TypeResult :=
  match type_token.type with
  | .struct_kw => ⟨.ok, o ++ " struct " ++ type_token.text, e, 0⟩
  | .enum_kw => ⟨.ok, o ++ " enum " ++ type_token.text, e, 0⟩
  | .t_void => ⟨.ok, o ++ " void", e, 0⟩
  | .t_char => ⟨.ok, o ++ " char", e, 0⟩
  | .t_int => ⟨.ok, o ++ " int", e, 0⟩
  | .t_long => ⟨.ok, o ++ " long", e, 0⟩
  | .t_float => ⟨.ok, o ++ " float", e, 0⟩
  | .t_double => ⟨.ok, o ++ " double", e, 0⟩
  | ty =>
    ⟨.parse_err, o,
      pdxcp_cdcl_write_parse_err e
        (fmt_errmsg ("Unknown identifier type " ++ token_type_string ty)), 1⟩

/-- Post-loop tail of `stream_parse_type`: a still-unset type token (its
sentinel type is `error`) is the missing-type error; otherwise the
cv-qualifiers are printed, sign qualifiers are printed for `char`, `int`
and `long` and rejected for every other base type, and the base type
itself is printed. Note the partial output `o1` precedes the
sign-qualifier error, as the C code has already written it. -/
def stream_parse_type_finish (has_const has_volatile is_signed is_unsigned : Bool)
    (type_token : Token) (e : Option Errinfo) : TypeResult :=
  if type_token.type = .error then
    ⟨.parse_err, "",
      pdxcp_cdcl_write_parse_err e "Identifier missing required type", 1⟩
  else
    let o1 := (if has_const then " const" else "")
      ++ (if has_volatile then " volatile" else "")
    if type_token.type = .t_char ∨ type_token.type = .t_int ∨ type_token.type = .t_long then
      let o2 := o1 ++ (if is_signed then " signed" else "")
        ++ (if is_unsigned then " unsigned" else "")
      type_print o2 type_token e
    else if is_signed || is_unsigned then
      ⟨.parse_err, o1,
        pdxcp_cdcl_write_parse_err e
          (fmt_errmsg ("Only char, int, or long can be signed or unsigned, received "
            ++ token_type_string type_token.type)), 1⟩
    else type_print o1 type_token e

/-- Loop of `stream_parse_type` with the accumulators explicit. The
`q_unsigned` case reproduces the C code exactly: after the two
duplicate/contradiction checks it FALLS THROUGH into the base-type
cases (the C source is missing an `is_unsigned = true; break;` pair), so
an `unsigned` token is recorded as the base type instead of setting the
sign flag; `is_unsigned` therefore never becomes true. The `re-quaifiy`
typo is verbatim from the source. -/
def stream_parse_type_go :
    List Token → Bool → Bool → Bool → Bool → Token → Option Errinfo → TypeResult
  | [], has_const, has_volatile, is_signed, is_unsigned, type_token, e =>
    stream_parse_type_finish has_const has_volatile is_signed is_unsigned type_token e
  | t :: rest, has_const, has_volatile, is_signed, is_unsigned, type_token, e =>
    match t.type with
    | .q_const =>
      if has_const then
        ⟨.parse_err, "",
          pdxcp_cdcl_write_parse_err e "Duplicate type const qualifier", 1⟩
      else stream_parse_type_go rest true has_volatile is_signed is_unsigned type_token e
    | .q_volatile =>
      if has_volatile then
        ⟨.parse_err, "",
          pdxcp_cdcl_write_parse_err e "Duplicate type volatile qualifier", 1⟩
      else stream_parse_type_go rest has_const true is_signed is_unsigned type_token e
    | .q_signed =>
      if is_signed then
        ⟨.parse_err, "",
          pdxcp_cdcl_write_parse_err e "Duplicate signed type qualifier", 1⟩
      else if is_unsigned then
        ⟨.parse_err, "",
          pdxcp_cdcl_write_parse_err e
            "Type already qualified as unsigned, cannot re-qualify as signed", 1⟩
      else stream_parse_type_go rest has_const has_volatile true is_unsigned type_token e
    | .q_unsigned =>
      if is_unsigned then
        ⟨.parse_err, "",
          pdxcp_cdcl_write_parse_err e "Duplicate unsigned type qualifier", 1⟩
      else if is_signed then
        ⟨.parse_err, "",
          pdxcp_cdcl_write_parse_err e
            "Type already qualified as signed, cannot re-quaifiy as unsigned", 1⟩
      else if type_token.type ≠ .error then
        ⟨.parse_err, "",
          pdxcp_cdcl_write_parse_err e
            (fmt_errmsg ("Type " ++ token_type_string t.type
              ++ " provided when identifier already specified as "
              ++ token_type_string type_token.type)), 1⟩
      else stream_parse_type_go rest has_const has_volatile is_signed is_unsigned
        ⟨t.type, t.text⟩ e
    | .struct_kw | .enum_kw | .t_void | .t_char | .t_int | .t_long | .t_float | .t_double =>
      if type_token.type ≠ .error then
        ⟨.parse_err, "",
          pdxcp_cdcl_write_parse_err e
            (fmt_errmsg ("Type " ++ token_type_string t.type
              ++ " provided when identifier already specified as "
              ++ token_type_string type_token.type)), 1⟩
      else stream_parse_type_go rest has_const has_volatile is_signed is_unsigned
        ⟨t.type, t.text⟩ e
    | _ =>
      ⟨.parse_err, "",
        pdxcp_cdcl_write_parse_err e
          (fmt_errmsg ("Unexpected token type " ++ token_type_string t.type
            ++ " with text \"" ++ t.text ++ "\" when parsing identifier type")), 1⟩

/-- Embedding of `stream_parse_type` (accumulators at their initial
values; the type token sentinel is `error` with uninitialized text,
modelled empty). -/
def stream_parse_type (stack : List Token) (e : Option Errinfo) : TypeResult :=
  stream_parse_type_go stack false false false false ⟨.error, ""⟩ e

/-- Overall result of `pdxcp_cdcl_stream_parse`: the returned status, the
bytes written to the output stream, the final state of the caller's
errinfo record, and the number of `pdxcp_cdcl_write_errinfo`
invocations. `stackUB` marks the undefined-behaviour branch of the stack
push macro; `fuelOut` is a model artifact of the loop fuel. -/
inductive ParseResult
  | stackUB
  | fuelOut
  | done (status : ParserStatus) (out : String) (errinfo : Option Errinfo) (writes : Nat)
deriving DecidableEq, Repr

/-- Embedding of `pdxcp_cdcl_stream_parse` for non-NULL streams (the
`in_null`/`out_null` guards are unrepresentable here). Phase A reads up
to the identifier, pushing prefix tokens; the identifier text and a `:`
are written; phase B counts trailing `)` tokens and requires a `;`
(anything else is the incomplete-declaration error); phase C pops
pointers/grouping (`stream_parse_ptrs`), phase D the qualified base type
(`stream_parse_type`); every completion path after the identifier write
appends the final newline (`parse_finalize`). -/
def pdxcp_cdcl_stream_parse (fuel : Nat) (s : List Char) (errinfo : Option Errinfo) :
    ParseResult :=
  -- token stack initialized empty; the current-token variable is
  -- uninitialized in C and modelled as an error token with empty text
  let tok0 : Token := ⟨.error, ""⟩
  match stream_parse_to_iden fuel s [] tok0 with
  | .fuelOut => .fuelOut
  | .stackUB => .stackUB
  | .done pst lexst stack tok s1 =>
    if pst ≠ .ok then
      .done pst "" (pdxcp_cdcl_write_errinfo errinfo lexst (some tok) pst none) 1
    else
      -- the identifier token is copied aside, then "%s:" is written
      let iden_text := tok.text
      let out0 := tok.text ++ ":"
      match pdxcp_cdcl_get_token s1 tok with
      | (lexst2, tok2, s2) =>
        if lexst2 ≠ .ok then
          .done .lexer_err (out0 ++ "\n")
            (pdxcp_cdcl_write_errinfo errinfo lexst2 (some tok2) .lexer_err none) 1
        else
          match (if tok2.type = .rparen then count_rparens fuel s2 tok2 0
                 else .done lexst2 tok2 s2 0) with
          | .fuelOut => .fuelOut
          | .done lexst3 tok3 s3 n_rparen =>
            if lexst3 ≠ .ok then
              .done .lexer_err (out0 ++ "\n")
                (pdxcp_cdcl_write_errinfo errinfo lexst3 (some tok3) .lexer_err none) 1
            else if tok3.type = .semicolon then
              let r1 := stream_parse_ptrs stack n_rparen errinfo
              if r1.status ≠ .ok then
                .done r1.status (out0 ++ r1.out ++ "\n") r1.errinfo r1.writes
              else
                let r2 := stream_parse_type r1.stack r1.errinfo
                .done r2.status (out0 ++ r1.out ++ r2.out ++ "\n") r2.errinfo
                  (r1.writes + r2.writes)
            else
              .done .parse_err (out0 ++ "\n")
                (pdxcp_cdcl_write_errinfo errinfo lexst3 (some tok3) .parse_err
                  (some (fmt_errmsg ("Incomplete declaration for identifier " ++ iden_text)))) 1

/-- Harness-style token collection: repeatedly call the lexer, collecting
tokens while the status is ok, and return the first non-ok status (the
loop of the multi-token lexer tests). -/
def lex_all : Nat → List Char → Token → List Token × LexerStatus
  | 0, _, _ => ([], .ok)
  | fuel + 1, s, tok =>
    match pdxcp_cdcl_get_token s tok with
    | (.ok, t, s1) =>
      match lex_all fuel s1 t with
      | (ts, st) => (t :: ts, st)
    | (st, _, _) => ([], st)

/-- Fresh errinfo record used as the arbitrary prior contents of the
caller-supplied record in concrete evaluations. -/
def errinfo0 : Errinfo := ⟨⟨.ok, ""⟩, ⟨.ok, ""⟩⟩

end Pdxcp

namespace Pdxcp

set_option maxRecDepth 16384

/-- C8: for the input `"int hello;"`, successive `pdxcp_cdcl_get_token`
calls yield exactly the int keyword, the identifier `hello` and a
semicolon, in that order, ending at `fgetc_eof`; and
`pdxcp_cdcl_stream_parse` on the same input returns ok and writes
exactly `"hello: int\n"` to the output stream (leaving the errinfo
record untouched). -/
theorem int_hello_roundtrip :
    lex_all 10 "int hello;".toList ⟨.error, ""⟩ =
      ([⟨.t_int, ""⟩, ⟨.iden, "hello"⟩, ⟨.semicolon, ""⟩], .fgetc_eof)
    ∧ pdxcp_cdcl_stream_parse 32 "int hello;".toList (some errinfo0) =
        .done .ok "hello: int\n" (some errinfo0) 0 :=
  ⟨by decide, by decide⟩

/-- C1 (code bug evidence): for `"unsigned char *const *const y;"` the
parse does NOT succeed: the `q_unsigned` case of `stream_parse_type`
falls through into the base-type cases (the C source lacks the
`is_unsigned = true; break;` present in the mirrored `q_signed` case),
so `unsigned` is recorded as a base type and the parse fails with
"Type ..._q_unsigned provided when identifier already specified as
..._t_char" after emitting only the pointer prefix. -/
theorem unsigned_fallthrough_eval :
    pdxcp_cdcl_stream_parse 32 "unsigned char *const *const y;".toList (some errinfo0) =
      .done .parse_err "y: const pointer to const pointer to\n"
        (some ⟨⟨.ok, ""⟩, ⟨.parse_err,
          "Type pdxcp_cdcl_token_type_q_unsigned provided when identifier already specified as pdxcp_cdcl_token_type_t_char"⟩⟩) 1 := by
  decide

/-- C2 (code bug evidence): for `"volatile void *x[100[];"` the parser
never enters array-specifier parsing (that code is commented out as a
TODO in `pdxcp_cdcl_stream_parse`): the `[` after the identifier is not
`;`, so the parse fails with the generic incomplete-declaration
diagnostic instead of the dedicated duplicate-left-bracket error the
repository's own test suite expects. -/
theorem array_specifier_unimplemented_eval :
    pdxcp_cdcl_stream_parse 32 "volatile void *x[100[];".toList (some errinfo0) =
      .done .parse_err "x:\n"
        (some ⟨⟨.ok, ""⟩, ⟨.parse_err, "Incomplete declaration for identifier x"⟩⟩) 1 := by
  decide

/-- C6: for `"const double ((**(*x));"` the parse fails with status
`parse_err` and the errinfo parser text is exactly the
mismatched-parentheses message with 3 popped `(` and 2 read `)`. -/
theorem mismatched_parens_eval :
    pdxcp_cdcl_stream_parse 32 "const double ((**(*x));".toList (some errinfo0) =
      .done .parse_err "x: pointer to pointer to pointer to\n"
        (some ⟨⟨.ok, ""⟩, ⟨.parse_err,
          "Mismatched parentheses when parsing pointers, read 3 '(' 2 ')'"⟩⟩) 1 := by
  decide

/-- C7: for `"*y;"` the parse fails with status `parse_err` and errinfo
parser text exactly the missing-type message; and, in general, whenever
the pointer-resolution pass exhausts the stack (reaches the empty stack,
whatever the accumulator state), it produces exactly this error. -/
theorem ptrs_missing_type :
    (pdxcp_cdcl_stream_parse 32 "*y;".toList (some errinfo0) =
      .done .parse_err "y: pointer to\n"
        (some ⟨⟨.ok, ""⟩, ⟨.parse_err,
          "Unexpectedly ran out of tokens when parsing pointers, missing type"⟩⟩) 1)
    ∧ ∀ (hc hv : Bool) (nl nr : Nat) (e : Option Errinfo),
        stream_parse_ptrs_go [] hc hv nl nr e =
          ⟨.parse_err, "", [],
            pdxcp_cdcl_write_parse_err e
              "Unexpectedly ran out of tokens when parsing pointers, missing type", 1⟩ :=
  ⟨by decide, fun _ _ _ _ _ => rfl⟩

/-- C3 (counterexample): the input `"/**//**/"` consists solely of two
adjacent block comments, yet `pdxcp_cdcl_get_token` returns `ok` with a
slash token (not `fgetc_eof`): after skipping one comment the code
resumes whitespace skipping and then classifies the next character
directly, so the second comment's `/` is emitted as a token. -/
theorem two_comments_slash_token :
    pdxcp_cdcl_get_token "/**//**/".toList ⟨.error, ""⟩ =
      (.ok, ⟨.slash, ""⟩, "**/".toList) := by
  decide

/-- C10: whenever `/` is the last character the lexer reads before end of
input (whitespace then a single `/`), the one-character lookahead hits
EOF and `pdxcp_cdcl_get_token` returns `ok` with a slash token rather
than an end-of-input, pushback-failure or bad-token status. -/
theorem slash_at_eof (s : List Char) (tok : Token)
    (h : s.dropWhile isspace_ = ['/']) :
    pdxcp_cdcl_get_token s tok = (.ok, ⟨.slash, ""⟩, []) := by
  unfold pdxcp_cdcl_get_token
  rw [h]
  rfl

/-- Witness for `slash_at_eof` at the concrete stream `" /"`. -/
theorem slash_at_eof_witness :
    ([' ', '/'].dropWhile isspace_ = ['/'])
    ∧ pdxcp_cdcl_get_token [' ', '/'] ⟨.error, ""⟩ = (.ok, ⟨.slash, ""⟩, []) :=
  ⟨by decide, slash_at_eof [' ', '/'] ⟨.error, ""⟩ (by decide)⟩

end Pdxcp

namespace Pdxcp

theorem stream_parse_to_iden_no_ub (fuel : Nat) :
    ∀ (s : List Char) (stack : List Token) (tok : Token),
      stream_parse_to_iden fuel s stack tok ≠ .stackUB := by
  induction fuel with
  | zero =>
    intro s stack tok
    simp [stream_parse_to_iden]
  | succ n ih =>
    intro s stack tok
    rw [stream_parse_to_iden]
    obtain ⟨st, t, s1⟩ := pdxcp_cdcl_get_token s tok
    simp only
    split_ifs with h1 h2 h3
    · simp
    · simp
    · simp
    · have hlt : stack.length < PDXCP_CDCL_PARSER_STACK_SIZE := by
        simp [STACK_FULL] at h3
        omega
      rw [STACK_PUSH, if_pos hlt]
      exact ih s1 (t :: stack) t

/-- C9: no execution of `pdxcp_cdcl_stream_parse` reaches the
undefined-behaviour branch of the token stack macros: every push is
guarded by the `PDXCP_CDCL_TOKEN_STACK_FULL` check (so the count never
exceeds `PDXCP_CDCL_PARSER_STACK_SIZE`, i.e. 20), and every pop/peek is
guarded by the non-empty check (encoded by the non-empty list pattern in
`stream_parse_ptrs_go`/`stream_parse_type_go`), so the parse never
produces the `stackUB` marker. -/
theorem parse_no_stack_ub (fuel : Nat) (s : List Char) (e : Option Errinfo) :
    pdxcp_cdcl_stream_parse fuel s e ≠ .stackUB := by
  unfold pdxcp_cdcl_stream_parse
  dsimp only
  split
  · simp
  · rename_i h
    exact absurd h (stream_parse_to_iden_no_ub fuel s [] _)
  · repeat' split
    all_goals simp

end Pdxcp

namespace Pdxcp

/-- Character lists consisting solely of C whitespace. -/
def allWs (l : List Char) : Prop := ∀ c ∈ l, isspace_ c = true

/-- Whether a character list contains the block-comment terminator
sequence `*/` as consecutive characters. -/
def hasStarSlash : List Char → Bool
  | [] => false
  | [_] => false
  | a :: b :: rest => decide (a = '*' ∧ b = '/') || hasStarSlash (b :: rest)

/-- Input streams that a single `pdxcp_cdcl_get_token` call can fully
consume without producing a token: all whitespace, or whitespace around
exactly one block comment (its body free of an early `*/`), or
whitespace around one line comment, with or without a closing newline
(nothing but whitespace may follow the newline). -/
def WsCommentOnly (s : List Char) : Prop :=
  allWs s
  ∨ (∃ w1 body w2, allWs w1 ∧ allWs w2 ∧ hasStarSlash body = false ∧
      s = w1 ++ '/' :: '*' :: (body ++ '*' :: '/' :: w2))
  ∨ (∃ w1 line w2, allWs w1 ∧ allWs w2 ∧ '\n' ∉ line ∧
      s = w1 ++ '/' :: '/' :: (line ++ '\n' :: w2))
  ∨ (∃ w1 line, allWs w1 ∧ '\n' ∉ line ∧ s = w1 ++ '/' :: '/' :: line)

instance decidableAllWs (l : List Char) : Decidable (allWs l) :=
  inferInstanceAs (Decidable (∀ c ∈ l, isspace_ c = true))

theorem skip_rem_cons_not_star {c : Char} (rest : List Char) (hc : ¬ c = '*') :
    skip_rem_c_comment (c :: rest) = skip_rem_c_comment rest := by
  conv_lhs => rw [skip_rem_c_comment.eq_def]
  dsimp only
  rw [if_neg hc]

theorem dropWhile_ws_append (w : List Char) (hw : allWs w) (r : List Char) :
    (w ++ r).dropWhile isspace_ = r.dropWhile isspace_ := by
  induction w with
  | nil => rfl
  | cons c cs ih =>
    have hc : isspace_ c = true := hw c (by simp)
    have hw2 : allWs cs := fun x hx => hw x (by simp [hx])
    simpa [List.dropWhile, hc] using ih hw2

theorem dropWhile_ws_nil (w : List Char) (hw : allWs w) :
    w.dropWhile isspace_ = [] := by
  simpa using dropWhile_ws_append w hw []

theorem ws_not_star {c : Char} (h : isspace_ c = true) : ¬ c = '*' := by
  intro e
  subst e
  simp [isspace_] at h

theorem skip_rem_no_star (s : List Char) (h : '*' ∉ s) :
    skip_rem_c_comment s = (.fgetc_eof, []) := by
  induction s with
  | nil => rfl
  | cons c rest ih =>
    have hc : ¬ c = '*' := fun e => h (by simp [e])
    rw [skip_rem_cons_not_star rest hc]
    exact ih (fun m => h (by simp [m]))

theorem hasStarSlash_tail {c : Char} {rest : List Char}
    (h : hasStarSlash (c :: rest) = false) : hasStarSlash rest = false := by
  cases rest with
  | nil => rfl
  | cons b r =>
    rw [hasStarSlash] at h
    exact (Bool.or_eq_false_iff.mp h).2

/-- Core comment-skipping property: consuming a comment body with no
early `*/`, the closing `*/`, and a whitespace-only tail either stops
exactly at the closer (leaving the tail) or overshoots into end of
input; nothing else can happen. -/
theorem skip_rem_comment_tail :
    ∀ (n : Nat) (body w2 : List Char), body.length ≤ n →
      hasStarSlash body = false → allWs w2 →
      skip_rem_c_comment (body ++ '*' :: '/' :: w2) = (.ok, w2)
      ∨ skip_rem_c_comment (body ++ '*' :: '/' :: w2) = (.fgetc_eof, []) := by
  intro n
  induction n with
  | zero =>
    intro body w2 hlen _ _
    have hb : body = [] := List.eq_nil_of_length_eq_zero (Nat.le_zero.mp hlen)
    subst hb
    left
    rfl
  | succ n ih =>
    intro body w2 hlen hb hw
    cases body with
    | nil =>
      left
      rfl
    | cons c bodyr =>
      by_cases hc : c = '*'
      · subst hc
        cases bodyr with
        | nil =>
          -- the character after this '*' is the closer's '*', not '/',
          -- so it is discarded and the rescan runs off the end
          right
          show skip_rem_c_comment ('/' :: w2) = (.fgetc_eof, [])
          refine skip_rem_no_star _ ?_
          intro hm
          rcases List.mem_cons.mp hm with h1 | h1
          · exact absurd h1.symm (by decide)
          · exact ws_not_star (hw _ h1) rfl
        | cons d bodyr2 =>
          have hd : ¬ d = '/' := by
            rw [hasStarSlash] at hb
            have h1 := (Bool.or_eq_false_iff.mp hb).1
            intro e
            subst e
            simp at h1
          have hb2 : hasStarSlash bodyr2 = false :=
            hasStarSlash_tail (hasStarSlash_tail hb)
          have hlen2 : bodyr2.length ≤ n := by
            simp only [List.length_cons] at hlen
            omega
          have hred : skip_rem_c_comment (('*' :: d :: bodyr2) ++ '*' :: '/' :: w2)
              = if d = '/' then (LexerStatus.ok, bodyr2 ++ '*' :: '/' :: w2)
                else skip_rem_c_comment (bodyr2 ++ '*' :: '/' :: w2) := rfl
          rw [hred, if_neg hd]
          exact ih bodyr2 w2 hlen2 hb2 hw
      · have hb2 : hasStarSlash bodyr = false := hasStarSlash_tail hb
        have hlen2 : bodyr.length ≤ n := by
          simp only [List.length_cons] at hlen
          omega
        rw [List.cons_append, skip_rem_cons_not_star _ hc]
        exact ih bodyr w2 hlen2 hb2 hw

theorem dropWhile_until_newline (line : List Char) (h : '\n' ∉ line) (r : List Char) :
    (line ++ '\n' :: r).dropWhile (fun x => !(x = '\n')) = '\n' :: r := by
  induction line with
  | nil => simp [List.dropWhile]
  | cons c cs ih =>
    have hc : ¬ c = '\n' := fun e => h (by simp [e])
    simpa [List.dropWhile, hc] using ih (fun m => h (by simp [m]))

theorem dropWhile_no_newline (line : List Char) (h : '\n' ∉ line) :
    line.dropWhile (fun x => !(x = '\n')) = [] := by
  induction line with
  | nil => rfl
  | cons c cs ih =>
    have hc : ¬ c = '\n' := fun e => h (by simp [e])
    simpa [List.dropWhile, hc] using ih (fun m => h (by simp [m]))

theorem lex_after_comment_ws (w : List Char) (hw : allWs w) (tok : Token) :
    lex_after_comment w tok = (.fgetc_eof, tok, []) := by
  rw [lex_after_comment, dropWhile_ws_nil w hw]

/-- C3 (amended): for every input consisting of whitespace and at most
ONE comment (block comment with only whitespace after it, or line
comment closed by a newline followed only by whitespace, or an unclosed
line comment), a single `pdxcp_cdcl_get_token` call returns `fgetc_eof`
without emitting any token and leaves the token slot untouched. With a
second comment present the claim fails: the code resumes whitespace
skipping after one comment and then classifies the next character
directly, so the second comment's `/` becomes a slash token. -/
theorem ws_one_comment_eof (s : List Char) (tok : Token) (h : WsCommentOnly s) :
    pdxcp_cdcl_get_token s tok = (.fgetc_eof, tok, []) := by
  have hslash : isspace_ '/' = false := by decide
  rcases h with hws | ⟨w1, body, w2, hw1, hw2, hb, rfl⟩ |
    ⟨w1, line, w2, hw1, hw2, hnl, rfl⟩ | ⟨w1, line, hw1, hnl, rfl⟩
  · rw [pdxcp_cdcl_get_token, dropWhile_ws_nil s hws]
  · have hred : pdxcp_cdcl_get_token (w1 ++ '/' :: '*' :: (body ++ '*' :: '/' :: w2)) tok
        = match ('/' :: '*' :: (body ++ '*' :: '/' :: w2)).dropWhile isspace_ with
          | [] => (LexerStatus.fgetc_eof, tok, ([] : List Char))
          | c :: rest =>
            if c = '/' then
              match rest with
              | [] =>
                match set_char_token '/' with
                | (st, tok1) => (st, tok1, ([] : List Char))
              | c2 :: rest2 =>
                if c2 = '*' then
                  match skip_rem_c_comment rest2 with
                  | (.ok, s3) => lex_after_comment s3 tok
                  | (st, s3) => (st, tok, s3)
                else if c2 = '/' then
                  match rest2.dropWhile (fun x => !(x = '\n')) with
                  | [] => (LexerStatus.fgetc_eof, tok, ([] : List Char))
                  | _ :: s3 => lex_after_comment s3 tok
                else
                  match set_char_token '/' with
                  | (st, tok1) => (st, tok1, c2 :: rest2)
            else lex_classify c rest tok := by
      rw [pdxcp_cdcl_get_token, dropWhile_ws_append w1 hw1]
    rw [hred]
    show (match skip_rem_c_comment (body ++ '*' :: '/' :: w2) with
          | (.ok, s3) => lex_after_comment s3 tok
          | (st, s3) => (st, tok, s3)) = (.fgetc_eof, tok, [])
    rcases skip_rem_comment_tail body.length body w2 le_rfl hb hw2 with hsr | hsr <;>
      rw [hsr]
    exact lex_after_comment_ws w2 hw2 tok
  · rw [pdxcp_cdcl_get_token, dropWhile_ws_append w1 hw1]
    show (match (line ++ '\n' :: w2).dropWhile (fun x => !(x = '\n')) with
          | [] => (LexerStatus.fgetc_eof, tok, ([] : List Char))
          | _ :: s3 => lex_after_comment s3 tok) = (.fgetc_eof, tok, [])
    rw [dropWhile_until_newline line hnl w2]
    exact lex_after_comment_ws w2 hw2 tok
  · rw [pdxcp_cdcl_get_token, dropWhile_ws_append w1 hw1]
    show (match line.dropWhile (fun x => !(x = '\n')) with
          | [] => (LexerStatus.fgetc_eof, tok, ([] : List Char))
          | _ :: s3 => lex_after_comment s3 tok) = (.fgetc_eof, tok, [])
    rw [dropWhile_no_newline line hnl]

/-- Witness for `ws_one_comment_eof` at the concrete stream
`" /* x */ "`. -/
theorem ws_one_comment_eof_witness :
    WsCommentOnly " /* x */ ".toList
    ∧ pdxcp_cdcl_get_token " /* x */ ".toList ⟨.error, ""⟩ =
        (.fgetc_eof, ⟨.error, ""⟩, []) := by
  have hcls : WsCommentOnly " /* x */ ".toList :=
    Or.inr (Or.inl ⟨[' '], [' ', 'x', ' '], [' '], by decide, by decide, by decide,
      by decide⟩)
  exact ⟨hcls, ws_one_comment_eof _ _ hcls⟩

end Pdxcp

namespace Pdxcp

/-- Observable part of a parse result: everything except the errinfo
record (status, output bytes, number of errinfo writes). -/
inductive ParseObs
  | stackUB
  | fuelOut
  | done (status : ParserStatus) (out : String) (writes : Nat)
deriving DecidableEq, Repr

/-- Projection of a parse result onto its observable part. -/
def ParseResult.obs : ParseResult → ParseObs
  | .stackUB => .stackUB
  | .fuelOut => .fuelOut
  | .done st out _ w => .done st out w

theorem stream_parse_ptrs_go_errinfo_indep :
    ∀ (stack : List Token) (hc hv : Bool) (nl nr : Nat) (e e2 : Option Errinfo),
      (stream_parse_ptrs_go stack hc hv nl nr e).status
          = (stream_parse_ptrs_go stack hc hv nl nr e2).status
      ∧ (stream_parse_ptrs_go stack hc hv nl nr e).out
          = (stream_parse_ptrs_go stack hc hv nl nr e2).out
      ∧ (stream_parse_ptrs_go stack hc hv nl nr e).stack
          = (stream_parse_ptrs_go stack hc hv nl nr e2).stack
      ∧ (stream_parse_ptrs_go stack hc hv nl nr e).writes
          = (stream_parse_ptrs_go stack hc hv nl nr e2).writes := by
  intro stack
  induction stack with
  | nil =>
    intro hc hv nl nr e e2
    simp [stream_parse_ptrs_go]
  | cons t rest ih =>
    intro hc hv nl nr e e2
    obtain ⟨ty, tx⟩ := t
    cases ty <;> simp only [stream_parse_ptrs_go] <;> (try split_ifs) <;>
      first
        | exact ih _ _ _ _ _ _
        | (obtain ⟨h1, h2, h3, h4⟩ := ih false false nl nr e e2
           exact ⟨h1, by simp [h2], h3, h4⟩)
        | simp

theorem type_print_errinfo_indep (o : String) (tt : Token) (e e2 : Option Errinfo) :
    (type_print o tt e).status = (type_print o tt e2).status
    ∧ (type_print o tt e).out = (type_print o tt e2).out
    ∧ (type_print o tt e).writes = (type_print o tt e2).writes := by
  obtain ⟨ty, tx⟩ := tt
  cases ty <;> simp [type_print]

theorem stream_parse_type_finish_errinfo_indep
    (hc hv isS isU : Bool) (tt : Token) (e e2 : Option Errinfo) :
    (stream_parse_type_finish hc hv isS isU tt e).status
        = (stream_parse_type_finish hc hv isS isU tt e2).status
    ∧ (stream_parse_type_finish hc hv isS isU tt e).out
        = (stream_parse_type_finish hc hv isS isU tt e2).out
    ∧ (stream_parse_type_finish hc hv isS isU tt e).writes
        = (stream_parse_type_finish hc hv isS isU tt e2).writes := by
  unfold stream_parse_type_finish
  split_ifs <;>
    first
      | exact type_print_errinfo_indep _ tt e e2
      | simp

theorem stream_parse_type_go_errinfo_indep :
    ∀ (stack : List Token) (hc hv isS isU : Bool) (tt : Token) (e e2 : Option Errinfo),
      (stream_parse_type_go stack hc hv isS isU tt e).status
          = (stream_parse_type_go stack hc hv isS isU tt e2).status
      ∧ (stream_parse_type_go stack hc hv isS isU tt e).out
          = (stream_parse_type_go stack hc hv isS isU tt e2).out
      ∧ (stream_parse_type_go stack hc hv isS isU tt e).writes
          = (stream_parse_type_go stack hc hv isS isU tt e2).writes := by
  intro stack
  induction stack with
  | nil =>
    intro hc hv isS isU tt e e2
    exact stream_parse_type_finish_errinfo_indep hc hv isS isU tt e e2
  | cons t rest ih =>
    intro hc hv isS isU tt e e2
    obtain ⟨ty, tx⟩ := t
    cases ty <;> simp only [stream_parse_type_go] <;> (try split_ifs) <;>
      first
        | exact ih _ _ _ _ _ _ _
        | simp

/-- C5: for every input and fuel, running the parse with a non-NULL
errinfo record and with a NULL one returns the same parser status,
writes the same bytes to the output stream, and performs the same
number of errinfo-write calls: diagnostics reporting has no effect on
parse behaviour. -/
theorem parse_errinfo_independent (fuel : Nat) (s : List Char) (e0 : Errinfo) :
    (pdxcp_cdcl_stream_parse fuel s (some e0)).obs
      = (pdxcp_cdcl_stream_parse fuel s none).obs := by
  unfold pdxcp_cdcl_stream_parse
  dsimp only
  rcases stream_parse_to_iden fuel s [] ⟨.error, ""⟩ with _ | _ | ⟨pst, lexst, stack, tok, s1⟩
  · rfl
  · rfl
  · by_cases h1 : pst ≠ ParserStatus.ok
    · simp only [if_pos h1]
      rfl
    · simp only [if_neg h1]
      obtain ⟨lexst2, tok2, s2⟩ := pdxcp_cdcl_get_token s1 tok
      dsimp only
      by_cases h2 : lexst2 ≠ LexerStatus.ok
      · simp only [if_pos h2]
        rfl
      · simp only [if_neg h2]
        have htail : ∀ r : RparenResult,
            (match r with
              | RparenResult.fuelOut => ParseResult.fuelOut
              | RparenResult.done lexst3 tok3 _s3 n_rparen =>
                if lexst3 ≠ LexerStatus.ok then
                  ParseResult.done ParserStatus.lexer_err (tok.text ++ ":" ++ "\n")
                    (pdxcp_cdcl_write_errinfo (some e0) lexst3 (some tok3)
                      ParserStatus.lexer_err none) 1
                else
                  if tok3.type = TokenType.semicolon then
                    if (stream_parse_ptrs stack n_rparen (some e0)).status ≠ ParserStatus.ok then
                      ParseResult.done (stream_parse_ptrs stack n_rparen (some e0)).status
                        (tok.text ++ ":" ++ (stream_parse_ptrs stack n_rparen (some e0)).out ++ "\n")
                        (stream_parse_ptrs stack n_rparen (some e0)).errinfo
                        (stream_parse_ptrs stack n_rparen (some e0)).writes
                    else
                      ParseResult.done
                        (stream_parse_type (stream_parse_ptrs stack n_rparen (some e0)).stack
                          (stream_parse_ptrs stack n_rparen (some e0)).errinfo).status
                        (tok.text ++ ":" ++ (stream_parse_ptrs stack n_rparen (some e0)).out ++
                          (stream_parse_type (stream_parse_ptrs stack n_rparen (some e0)).stack
                            (stream_parse_ptrs stack n_rparen (some e0)).errinfo).out ++ "\n")
                        (stream_parse_type (stream_parse_ptrs stack n_rparen (some e0)).stack
                          (stream_parse_ptrs stack n_rparen (some e0)).errinfo).errinfo
                        ((stream_parse_ptrs stack n_rparen (some e0)).writes +
                          (stream_parse_type (stream_parse_ptrs stack n_rparen (some e0)).stack
                            (stream_parse_ptrs stack n_rparen (some e0)).errinfo).writes)
                  else
                    ParseResult.done ParserStatus.parse_err (tok.text ++ ":" ++ "\n")
                      (pdxcp_cdcl_write_errinfo (some e0) lexst3 (some tok3)
                        ParserStatus.parse_err
                        (some (fmt_errmsg ("Incomplete declaration for identifier "
                          ++ tok.text)))) 1).obs
            = (match r with
              | RparenResult.fuelOut => ParseResult.fuelOut
              | RparenResult.done lexst3 tok3 _s3 n_rparen =>
                if lexst3 ≠ LexerStatus.ok then
                  ParseResult.done ParserStatus.lexer_err (tok.text ++ ":" ++ "\n")
                    (pdxcp_cdcl_write_errinfo none lexst3 (some tok3)
                      ParserStatus.lexer_err none) 1
                else
                  if tok3.type = TokenType.semicolon then
                    if (stream_parse_ptrs stack n_rparen none).status ≠ ParserStatus.ok then
                      ParseResult.done (stream_parse_ptrs stack n_rparen none).status
                        (tok.text ++ ":" ++ (stream_parse_ptrs stack n_rparen none).out ++ "\n")
                        (stream_parse_ptrs stack n_rparen none).errinfo
                        (stream_parse_ptrs stack n_rparen none).writes
                    else
                      ParseResult.done
                        (stream_parse_type (stream_parse_ptrs stack n_rparen none).stack
                          (stream_parse_ptrs stack n_rparen none).errinfo).status
                        (tok.text ++ ":" ++ (stream_parse_ptrs stack n_rparen none).out ++
                          (stream_parse_type (stream_parse_ptrs stack n_rparen none).stack
                            (stream_parse_ptrs stack n_rparen none).errinfo).out ++ "\n")
                        (stream_parse_type (stream_parse_ptrs stack n_rparen none).stack
                          (stream_parse_ptrs stack n_rparen none).errinfo).errinfo
                        ((stream_parse_ptrs stack n_rparen none).writes +
                          (stream_parse_type (stream_parse_ptrs stack n_rparen none).stack
                            (stream_parse_ptrs stack n_rparen none).errinfo).writes)
                  else
                    ParseResult.done ParserStatus.parse_err (tok.text ++ ":" ++ "\n")
                      (pdxcp_cdcl_write_errinfo none lexst3 (some tok3)
                        ParserStatus.parse_err
                        (some (fmt_errmsg ("Incomplete declaration for identifier "
                          ++ tok.text)))) 1).obs := by
          intro r
          rcases r with _ | ⟨lexst3, tok3, s3, nr⟩
          · rfl
          · dsimp only
            by_cases h4 : lexst3 ≠ LexerStatus.ok
            · simp only [if_pos h4]
              rfl
            · simp only [if_neg h4]
              by_cases h5 : tok3.type = TokenType.semicolon
              · simp only [if_pos h5, stream_parse_ptrs, stream_parse_type]
                obtain ⟨hp1, hp2, hp3, hp4⟩ :=
                  stream_parse_ptrs_go_errinfo_indep stack false false 0 nr (some e0) none
                rw [← hp1, ← hp2, ← hp3, ← hp4]
                obtain ⟨ht1, ht2, ht3⟩ :=
                  stream_parse_type_go_errinfo_indep
                    ((stream_parse_ptrs_go stack false false 0 nr (some e0)).stack)
                    false false false false ⟨.error, ""⟩
                    ((stream_parse_ptrs_go stack false false 0 nr (some e0)).errinfo)
                    ((stream_parse_ptrs_go stack false false 0 nr none).errinfo)
                rw [← ht1, ← ht2, ← ht3]
                split_ifs <;> rfl
              · simp only [if_neg h5]
                rfl
        exact htail (if tok2.type = TokenType.rparen then count_rparens fuel s2 tok2 0
          else RparenResult.done lexst2 tok2 s2 0)

end Pdxcp

namespace Pdxcp

theorem stream_parse_ptrs_go_write_discipline :
    ∀ (stack : List Token) (hc hv : Bool) (nl nr : Nat) (e : Option Errinfo),
      ((stream_parse_ptrs_go stack hc hv nl nr e).status = ParserStatus.ok
        ∧ (stream_parse_ptrs_go stack hc hv nl nr e).writes = 0
        ∧ (stream_parse_ptrs_go stack hc hv nl nr e).errinfo = e)
      ∨ ((stream_parse_ptrs_go stack hc hv nl nr e).status = ParserStatus.parse_err
        ∧ (stream_parse_ptrs_go stack hc hv nl nr e).writes = 1) := by
  intro stack
  induction stack with
  | nil =>
    intro hc hv nl nr e
    right
    simp [stream_parse_ptrs_go]
  | cons t rest ih =>
    intro hc hv nl nr e
    obtain ⟨ty, tx⟩ := t
    cases ty <;> simp only [stream_parse_ptrs_go] <;> (try split_ifs) <;>
      first
        | exact ih _ _ _ _ _
        | (rcases ih false false nl nr e with ⟨h1, h2, h3⟩ | ⟨h1, h2⟩
           exacts [Or.inl ⟨h1, h2, h3⟩, Or.inr ⟨h1, h2⟩])
        | exact Or.inr ⟨rfl, rfl⟩
        | exact Or.inl ⟨rfl, rfl, rfl⟩

theorem type_print_write_discipline (o : String) (tt : Token) (e : Option Errinfo) :
    ((type_print o tt e).status = ParserStatus.ok ∧ (type_print o tt e).writes = 0
      ∧ (type_print o tt e).errinfo = e)
    ∨ ((type_print o tt e).status = ParserStatus.parse_err
      ∧ (type_print o tt e).writes = 1) := by
  obtain ⟨ty, tx⟩ := tt
  cases ty <;> first
    | exact Or.inl ⟨rfl, rfl, rfl⟩
    | exact Or.inr ⟨rfl, rfl⟩

theorem stream_parse_type_finish_write_discipline
    (hc hv isS isU : Bool) (tt : Token) (e : Option Errinfo) :
    ((stream_parse_type_finish hc hv isS isU tt e).status = ParserStatus.ok
      ∧ (stream_parse_type_finish hc hv isS isU tt e).writes = 0
      ∧ (stream_parse_type_finish hc hv isS isU tt e).errinfo = e)
    ∨ ((stream_parse_type_finish hc hv isS isU tt e).status = ParserStatus.parse_err
      ∧ (stream_parse_type_finish hc hv isS isU tt e).writes = 1) := by
  unfold stream_parse_type_finish
  split_ifs <;>
    first
      | exact type_print_write_discipline _ _ _
      | (right
         simp
         done)

theorem stream_parse_type_go_write_discipline :
    ∀ (stack : List Token) (hc hv isS isU : Bool) (tt : Token) (e : Option Errinfo),
      ((stream_parse_type_go stack hc hv isS isU tt e).status = ParserStatus.ok
        ∧ (stream_parse_type_go stack hc hv isS isU tt e).writes = 0
        ∧ (stream_parse_type_go stack hc hv isS isU tt e).errinfo = e)
      ∨ ((stream_parse_type_go stack hc hv isS isU tt e).status = ParserStatus.parse_err
        ∧ (stream_parse_type_go stack hc hv isS isU tt e).writes = 1) := by
  intro stack
  induction stack with
  | nil =>
    intro hc hv isS isU tt e
    exact stream_parse_type_finish_write_discipline hc hv isS isU tt e
  | cons t rest ih =>
    intro hc hv isS isU tt e
    obtain ⟨ty, tx⟩ := t
    cases ty <;> simp only [stream_parse_type_go] <;> (try split_ifs) <;>
      first
        | exact ih _ _ _ _ _ _
        | (right
           simp
           done)

theorem stream_parse_to_iden_status (fuel : Nat) :
    ∀ (s : List Char) (stack : List Token) (tok : Token)
      (pst : ParserStatus) (lexst : LexerStatus) (stack2 : List Token)
      (tok2 : Token) (s2 : List Char),
      stream_parse_to_iden fuel s stack tok = .done pst lexst stack2 tok2 s2 →
      pst = ParserStatus.ok ∨ pst = ParserStatus.lexer_err
        ∨ pst = ParserStatus.token_overflow := by
  induction fuel with
  | zero =>
    intro s stack tok pst lexst stack2 tok2 s2 h
    simp [stream_parse_to_iden] at h
  | succ n ih =>
    intro s stack tok pst lexst stack2 tok2 s2 h
    rw [stream_parse_to_iden] at h
    rcases hg : pdxcp_cdcl_get_token s tok with ⟨st, t, s1⟩
    rw [hg] at h
    dsimp only at h
    split_ifs at h with h1 h2 h3
    · injection h with ha
      exact Or.inr (Or.inl ha.symm)
    · injection h with ha
      exact Or.inl ha.symm
    · injection h with ha
      exact Or.inr (Or.inr ha.symm)
    · rcases hpush : STACK_PUSH stack t with _ | stack1 <;> rw [hpush] at h
      · simp at h
      · exact ih s1 stack1 t pst lexst stack2 tok2 s2 h

/-- C4 (amended): with a non-NULL error-info argument, the record is
populated exactly once when the parse returns `lexer_err`,
`token_overflow` or `parse_err`, overwriting any prior contents; a
parse that returns `ok` performs no errinfo write at all and leaves the
caller's record untouched. -/
theorem errinfo_population_discipline (fuel : Nat) (s : List Char) (e0 : Errinfo)
    (st : ParserStatus) (out : String) (e : Option Errinfo) (w : Nat)
    (h : pdxcp_cdcl_stream_parse fuel s (some e0) = .done st out e w) :
    (w = if st = ParserStatus.lexer_err ∨ st = ParserStatus.token_overflow
          ∨ st = ParserStatus.parse_err then 1 else 0)
    ∧ (st = ParserStatus.ok → e = some e0) := by
  unfold pdxcp_cdcl_stream_parse at h
  dsimp only at h
  rcases hti : stream_parse_to_iden fuel s [] ⟨.error, ""⟩
    with _ | _ | ⟨pst, lexst, stack, tok, s1⟩ <;> rw [hti] at h
  · simp at h
  · simp at h
  · dsimp only at h
    by_cases h1 : pst ≠ ParserStatus.ok
    · rw [if_pos h1] at h
      injection h with ha hb hc hd
      subst ha
      subst hd
      rcases stream_parse_to_iden_status fuel s [] ⟨.error, ""⟩ pst lexst stack tok s1 hti
        with hok | hst | hst
      · exact absurd hok h1
      · subst hst
        exact ⟨by simp, by simp⟩
      · subst hst
        exact ⟨by simp, by simp⟩
    · rw [if_neg h1] at h
      rcases hg : pdxcp_cdcl_get_token s1 tok with ⟨lexst2, tok2, s2⟩
      rw [hg] at h
      dsimp only at h
      by_cases h2 : lexst2 ≠ LexerStatus.ok
      · rw [if_pos h2] at h
        injection h with ha hb hc hd
        subst ha
        subst hd
        exact ⟨by simp, by simp⟩
      · rw [if_neg h2] at h
        rcases hr : (if tok2.type = TokenType.rparen then count_rparens fuel s2 tok2 0
            else RparenResult.done lexst2 tok2 s2 0) with _ | ⟨lexst3, tok3, s3, nr⟩ <;>
          rw [hr] at h
        · simp at h
        · dsimp only at h
          by_cases h4 : lexst3 ≠ LexerStatus.ok
          · rw [if_pos h4] at h
            injection h with ha hb hc hd
            subst ha
            subst hd
            exact ⟨by simp, by simp⟩
          · rw [if_neg h4] at h
            by_cases h5 : tok3.type = TokenType.semicolon
            · rw [if_pos h5] at h
              simp only [stream_parse_ptrs, stream_parse_type] at h
              rcases stream_parse_ptrs_go_write_discipline stack false false 0 nr (some e0)
                with ⟨hp1, hp2, hp3⟩ | ⟨hp1, hp2⟩
              · rw [if_neg (by simp [hp1])] at h
                rcases stream_parse_type_go_write_discipline
                    ((stream_parse_ptrs_go stack false false 0 nr (some e0)).stack)
                    false false false false ⟨.error, ""⟩
                    ((stream_parse_ptrs_go stack false false 0 nr (some e0)).errinfo)
                  with ⟨ht1, ht2, ht3⟩ | ⟨ht1, ht2⟩
                · injection h with ha hb hc hd
                  subst ha
                  subst hc
                  subst hd
                  rw [ht1, ht2, hp2, ht3, hp3]
                  exact ⟨by simp, fun _ => rfl⟩
                · injection h with ha hb hc hd
                  subst ha
                  subst hd
                  rw [ht1, ht2, hp2]
                  exact ⟨by simp, by simp [ht1]⟩
              · rw [if_pos (by simp [hp1])] at h
                injection h with ha hb hc hd
                subst ha
                subst hd
                rw [hp1, hp2]
                exact ⟨by simp, by simp [hp1]⟩
            · rw [if_neg h5] at h
              injection h with ha hb hc hd
              subst ha
              subst hd
              exact ⟨by simp, by simp⟩

/-- Witness for `errinfo_population_discipline` at the concrete input
`"*y;"`, which fails with `parse_err` after one errinfo write. -/
theorem errinfo_population_witness :
    ((1 : Nat) = if ParserStatus.parse_err = ParserStatus.lexer_err
        ∨ ParserStatus.parse_err = ParserStatus.token_overflow
        ∨ ParserStatus.parse_err = ParserStatus.parse_err then 1 else 0)
    ∧ (ParserStatus.parse_err = ParserStatus.ok →
        (some (⟨⟨.ok, ""⟩, ⟨.parse_err,
          "Unexpectedly ran out of tokens when parsing pointers, missing type"⟩⟩ : Errinfo))
          = some errinfo0) :=
  errinfo_population_discipline 32 ("*y;".toList) errinfo0 .parse_err "y: pointer to\n"
    (some ⟨⟨.ok, ""⟩, ⟨.parse_err,
      "Unexpectedly ran out of tokens when parsing pointers, missing type"⟩⟩) 1
    (by decide)

/-- C4 (counterexample to the claim as stated): a call that returns `ok`
does NOT populate the error-info record: parsing `"int hello;"` with
distinctive stale contents in the record returns `ok` having performed
zero errinfo writes, the stale contents surviving verbatim. -/
theorem errinfo_untouched_on_ok :
    pdxcp_cdcl_stream_parse 32 "int hello;".toList
        (some ⟨⟨.bad_token, "stale lexer text"⟩, ⟨.eof, "stale parser text"⟩⟩) =
      .done .ok "hello: int\n"
        (some ⟨⟨.bad_token, "stale lexer text"⟩, ⟨.eof, "stale parser text"⟩⟩) 0 := by
  decide

end Pdxcp
